import Mathlib

/-!
A shallow embedding of the "Perfect Shot" React application (src/unnamed/part_000,
the variant with the cropping pipeline) and proofs about its state-management
handlers.  Each React `useState` hook becomes a field of `AppModel`; each event
handler becomes a pure state-transition function.  Asynchronous external
collaborators (the FileReader decoding, the canvas rasterizer, the
`generateVibeBasedImage` API and the `createAlbumPage` composer) are modelled
as parameters carrying their eventual results, so that a handler's effect on
the React state is a total function of the current state and those results.
-/

namespace PerfectShot

/-- `type ImageStatus = 'pending' | 'done' | 'error'` -/
inductive ImageStatus where
  | pending
  | done
  | error
deriving Repr, DecidableEq

/-- `interface GeneratedImage { status: ImageStatus; url?: string; error?: string }` -/
structure GeneratedImage where
  status : ImageStatus
  url : Option String
  error : Option String
deriving Repr, DecidableEq

/-- The two photo categories: `'main' | 'inspiration'`. -/
inductive ImageType where
  | main
  | inspiration
deriving Repr, DecidableEq

/-- One entry of the crop queue: `{ dataUrl: string; type: 'main' | 'inspiration' }`. -/
structure CropQueueItem where
  dataUrl : String
  type : ImageType
deriving Repr, DecidableEq

/-- `appState : 'idle' | 'photos-uploaded' | 'generating' | 'results-shown'` -/
inductive AppState where
  | idle
  | photosUploaded
  | generating
  | resultsShown
deriving Repr, DecidableEq

/-- A crop rectangle.  The geometry is opaque to every property proved here
(the handlers only test presence/absence and reset it), so the four numeric
fields are carried but never interpreted. -/
structure PixelCrop where
  x : Int
  y : Int
  width : Int
  height : Int
deriving Repr, DecidableEq

/-- A JavaScript exception value as discriminated by
`err instanceof Error ? err.message : ...`: either an `Error` object carrying
a message, or any other thrown value. -/
inductive JSError where
  | errorObj (message : String)
  | nonError
deriving Repr, DecidableEq

/-- `const MAX_MAIN_IMAGES = 10` -/
def MAX_MAIN_IMAGES : Nat := 10

/-- `const MAX_INSPIRATION_IMAGES = 5` -/
def MAX_INSPIRATION_IMAGES : Nat := 5

/-- The React component state: one field per `useState` hook of `App`. -/
structure AppModel where
  uploadedImages : List String
  inspirationImages : List String
  userPrompt : String
  generatedImages : List GeneratedImage
  isDownloading : Bool
  appState : AppState
  generationCount : Nat
  cropQueue : List CropQueueItem
  crop : Option PixelCrop
  completedCrop : Option PixelCrop
  pastedImages : List String
  isPasteModalOpen : Bool
deriving Repr, DecidableEq

/-- The initial values passed to the `useState` hooks. -/
def initialState : AppModel where
  uploadedImages := []
  inspirationImages := []
  userPrompt := ""
  generatedImages := []
  isDownloading := false
  appState := AppState.idle
  generationCount := 4
  cropQueue := []
  crop := none
  completedCrop := none
  pastedImages := []
  isPasteModalOpen := false

/-- `type === 'main' ? MAX_MAIN_IMAGES : MAX_INSPIRATION_IMAGES` -/
def maxImagesFor : ImageType → Nat
  | ImageType.main => MAX_MAIN_IMAGES
  | ImageType.inspiration => MAX_INSPIRATION_IMAGES

/-- `type === 'main' ? uploadedImages.length : inspirationImages.length` -/
def currentCountFor (s : AppModel) : ImageType → Nat
  | ImageType.main => s.uploadedImages.length
  | ImageType.inspiration => s.inspirationImages.length

/-- JavaScript `array.slice(0, e)`: a negative end index counts from the end
of the array (clamped at 0); a nonnegative one is an ordinary prefix. -/
def jsSliceTo (l : List α) (e : Int) : List α :=
  if 0 ≤ e then l.take e.toNat else l.take (l.length - e.natAbs)

/-- `handleAddPastedImages`: commits the pasted-image buffer to the crop queue
for the chosen category, truncated to the available capacity; bails out
untouched when the category is already full. -/
def handleAddPastedImages (s : AppModel) (t : ImageType) : AppModel :=
  let maxImages := maxImagesFor t
  let currentCount := currentCountFor s t
  let availableSlots : Int := (maxImages : Int) - (currentCount : Int)
  if availableSlots ≤ 0 then s
  else
    let imagesToAdd := s.pastedImages.take availableSlots.toNat
    let newQueueItems := imagesToAdd.map (fun dataUrl => CropQueueItem.mk dataUrl t)
    { s with
        cropQueue := s.cropQueue ++ newQueueItems
        isPasteModalOpen := false
        pastedImages := [] }

/-- `handleCancelPaste`: closes the paste modal and discards the buffer. -/
def handleCancelPaste (s : AppModel) : AppModel :=
  { s with isPasteModalOpen := false, pastedImages := [] }

/-- `handleImageUpload`: `files` stands for the data URLs the `FileReader`s
eventually produce for `e.target.files`, in order.  The batch is truncated by
`Array.from(e.target.files).slice(0, maxImages - currentCount)` and appended
to the crop queue tagged with the target category. -/
def handleImageUpload (s : AppModel) (files : List String) (t : ImageType) : AppModel :=
  let maxImages := maxImagesFor t
  let currentCount := currentCountFor s t
  let accepted := jsSliceTo files ((maxImages : Int) - (currentCount : Int))
  { s with cropQueue := s.cropQueue ++ accepted.map (fun dataUrl => CropQueueItem.mk dataUrl t) }

/-- `removeMainImage`: `prev.filter((_, i) => i !== index)`. -/
def removeMainImage (s : AppModel) (index : Nat) : AppModel :=
  { s with uploadedImages :=
      ((s.uploadedImages.enum.filter (fun p => p.1 ≠ index)).map (fun p => p.2)) }

/-- `removeInspirationImage`: `prev.filter((_, i) => i !== index)`. -/
def removeInspirationImage (s : AppModel) (index : Nat) : AppModel :=
  { s with inspirationImages :=
      ((s.inspirationImages.enum.filter (fun p => p.1 ≠ index)).map (fun p => p.2)) }

/-- The `onComplete` callback of `ReactCrop`: records the user's crop selection. -/
def setCompletedCrop (s : AppModel) (c : PixelCrop) : AppModel :=
  { s with completedCrop := some c }

/-- `handleCropConfirm`: bails out when the image element is absent, no crop is
selected, or the queue is empty; otherwise appends the rasterized crop
(`croppedDataUrl`, the opaque result of `canvasPreview` + `canvas.toDataURL`)
to the PhotoSet named by the head entry's category, marks photos as uploaded,
pops the queue head and resets the crop selection. -/
def handleCropConfirm (s : AppModel) (imagePresent : Bool) (croppedDataUrl : String) : AppModel :=
  if imagePresent = false then s
  else
    match s.completedCrop with
    | none => s
    | some _ =>
      match s.cropQueue with
      | [] => s
      | currentItem :: rest =>
        let s1 :=
          match currentItem.type with
          | ImageType.main => { s with uploadedImages := s.uploadedImages ++ [croppedDataUrl] }
          | ImageType.inspiration =>
              { s with inspirationImages := s.inspirationImages ++ [croppedDataUrl] }
        { s1 with
            appState := AppState.photosUploaded
            cropQueue := rest
            crop := none
            completedCrop := none }

/-- `handleCropCancel` ("Skip"): pops the queue head and resets the crop
selection without touching any PhotoSet. -/
def handleCropCancel (s : AppModel) : AppModel :=
  { s with cropQueue := s.cropQueue.drop 1, crop := none, completedCrop := none }

/-- The slot created by `Array(generationCount).fill({ status: 'pending' })`. -/
def pendingSlot : GeneratedImage :=
  { status := ImageStatus.pending, url := none, error := none }

/-- `err instanceof Error ? err.message : "An unknown error occurred."` -/
def errorMessageOf : JSError → String
  | JSError.errorObj message => message
  | JSError.nonError => "An unknown error occurred."

/-- The `.then(... 'done' ...).catch(... 'error' ...)` chain attached to each
`generateVibeBasedImage` call: converts the promise's settlement into a
`GeneratedImage`; a rejection is always caught and carries a human-readable
message. -/
def slotOfOutcome : Except JSError String → GeneratedImage
  | Except.ok resultUrl =>
      { status := ImageStatus.done, url := some resultUrl, error := none }
  | Except.error err =>
      { status := ImageStatus.error, url := none, error := some (errorMessageOf err) }

/-- The synchronous prefix of `handleGenerateClick` once past its guard:
`setAppState('generating')` and the fresh all-pending slot array. -/
def generateStart (s : AppModel) : AppModel :=
  { s with
      appState := AppState.generating
      generatedImages := List.replicate s.generationCount pendingSlot }

/-- The per-promise `.then` handler in the `for` loop of `handleGenerateClick`:
when request `i` settles, slot `i` is overwritten with its outcome.
`order` is the order in which the K requests happen to settle; `outcomes i`
is request `i`'s individual settlement. -/
def settleAll (arr : List GeneratedImage) (outcomes : Nat → Except JSError String)
    (order : List Nat) : List GeneratedImage :=
  order.foldl (fun a i => a.set i (slotOfOutcome (outcomes i))) arr

/-- `handleGenerateClick`, run to quiescence: guard on empty PhotoSets, then
`generating` + K pending slots, then the K settlements in arrival order
(`order`), then — after `await Promise.all` — `setAppState('results-shown')`.
The second component counts the `generateVibeBasedImage` calls issued. -/
def handleGenerateClick (s : AppModel) (outcomes : Nat → Except JSError String)
    (order : List Nat) : AppModel × Nat :=
  if s.uploadedImages.length = 0 ∨ s.inspirationImages.length = 0 then (s, 0)
  else
    let s1 := generateStart s
    ({ s1 with
        generatedImages := settleAll s1.generatedImages outcomes order
        appState := AppState.resultsShown },
     s.generationCount)

/-- The guard `generatedImages[index]?.status === 'pending'` of
`handleRegenerateSlot` (an out-of-range index reads `undefined`, which is not
`'pending'`). -/
def slotPendingAt (s : AppModel) (index : Nat) : Bool :=
  match s.generatedImages.get? index with
  | some g => g.status == ImageStatus.pending
  | none => false

/-- The synchronous prefix of `handleRegenerateSlot` once past its guards:
slot `index` is reset to pending. -/
def regenPending (s : AppModel) (index : Nat) : AppModel :=
  { s with generatedImages := s.generatedImages.set index pendingSlot }

/-- `handleRegenerateSlot`, run to quiescence: no-op when a PhotoSet is empty
or the slot is already pending; otherwise resets slot `index` to pending,
issues one request and writes its outcome (the `catch` arm converts a failure
into an error slot with a human-readable message).  The second component
counts the `generateVibeBasedImage` calls issued. -/
def handleRegenerateSlot (s : AppModel) (index : Nat)
    (outcome : Except JSError String) : AppModel × Nat :=
  if s.uploadedImages.length = 0 ∨ s.inspirationImages.length = 0 then (s, 0)
  else if slotPendingAt s index then (s, 0)
  else
    let s1 := regenPending s index
    ({ s1 with generatedImages := s1.generatedImages.set index (slotOfOutcome outcome) }, 1)

/-- `handleReset`: empties both PhotoSets, the slot array and the prompt and
returns to `idle`; every other hook (notably the crop queue) is untouched. -/
def handleReset (s : AppModel) : AppModel :=
  { s with
      uploadedImages := []
      inspirationImages := []
      generatedImages := []
      userPrompt := ""
      appState := AppState.idle }

/-- The observable side effects of one `handleDownloadAlbum` run. -/
structure AlbumEffects where
  composeCalled : Bool
  composeInput : List (String × String)
  downloadTriggered : Bool
  alertMessage : Option String
deriving Repr, DecidableEq

def noAlbumEffects : AlbumEffects :=
  { composeCalled := false, composeInput := [], downloadTriggered := false,
    alertMessage := none }

/-- The `generatedImages.forEach((image, index) => ...)` loop body of
`handleDownloadAlbum`: for each slot with `image.status === 'done' &&
image.url` (truthy, hence a non-empty string), one entry keyed
`Result ${index + 1}`.  Record keys are distinct per index, so insertion
order is index order. -/
def albumImageDataGo (index : Nat) : List GeneratedImage → List (String × String)
  | [] => []
  | image :: rest =>
      match image.status, image.url with
      | ImageStatus.done, some u =>
          if u = "" then albumImageDataGo (index + 1) rest
          else ("Result " ++ toString (index + 1), u) :: albumImageDataGo (index + 1) rest
      | _, _ => albumImageDataGo (index + 1) rest

/-- The `imageData` record of `handleDownloadAlbum`, as the association list
produced by walking `generatedImages` from index 0. -/
def albumImageData (slots : List GeneratedImage) : List (String × String) :=
  albumImageDataGo 0 slots

/-- The state while `createAlbumPage` is awaited: `setIsDownloading(true)` has
run, nothing else has changed yet. -/
def downloadAlbumInFlight (s : AppModel) : AppModel :=
  { s with isDownloading := true }

/-- `handleDownloadAlbum`, run to quiescence.  `composeResult` is how the
`createAlbumPage` promise would settle if called.  Empty input alerts and
returns before composing; success triggers the download; failure alerts; the
`finally` clause clears `isDownloading` on every path. -/
def handleDownloadAlbum (s : AppModel) (composeResult : Except JSError String) :
    AppModel × AlbumEffects :=
  let imageData := albumImageData s.generatedImages
  if imageData.length = 0 then
    ({ s with isDownloading := false },
     { composeCalled := false, composeInput := [], downloadTriggered := false,
       alertMessage :=
         some "No images have been successfully generated to create an album." })
  else
    match composeResult with
    | Except.ok _ =>
        ({ s with isDownloading := false },
         { composeCalled := true, composeInput := imageData, downloadTriggered := true,
           alertMessage := none })
    | Except.error _ =>
        ({ s with isDownloading := false },
         { composeCalled := true, composeInput := imageData, downloadTriggered := false,
           alertMessage :=
             some "Sorry, there was an error creating your album. Please try again." })

/-- A click on the "Download Album" button: the button carries
`disabled={isDownloading}`, so a click while a composition is in flight does
nothing. -/
def clickDownloadAlbum (s : AppModel) (composeResult : Except JSError String) :
    AppModel × AlbumEffects :=
  if s.isDownloading then (s, noAlbumEffects)
  else handleDownloadAlbum s composeResult

/-- An order in which the `k` concurrent generation requests can settle:
a permutation of the request indices `0, …, k-1`. -/
def CompletionOrder (k : Nat) (order : List Nat) : Prop :=
  List.Perm order (List.range k)

/-- One user round at the crop modal: adjust the crop selection (the
`onComplete` callback fires) and press "Crop & Save". -/
def cropAndConfirm (s : AppModel) : AppModel :=
  handleCropConfirm (setCompletedCrop s (PixelCrop.mk 0 0 100 100)) true "data:cropped"

/-- `n` consecutive crop-and-confirm rounds. -/
def confirmRepeat : Nat → AppModel → AppModel
  | 0, s => s
  | n + 1, s => confirmRepeat n (cropAndConfirm s)

/-- A legal event sequence: from the initial state, two file-picker batches of
10 images each are taken in for the main category before any crop is
confirmed (each intake sees `uploadedImages.length = 0`, so nothing is
truncated and the upload control is still enabled), then all 20 queued
entries are confirmed. -/
def overfillTrace : AppModel :=
  confirmRepeat 20
    (handleImageUpload
      (handleImageUpload initialState (List.replicate 10 "data:a") ImageType.main)
      (List.replicate 10 "data:b") ImageType.main)

/-! ## Helper lemmas -/

theorem handleAddPastedImages_full (s : AppModel) (t : ImageType)
    (h : maxImagesFor t ≤ currentCountFor s t) :
    handleAddPastedImages s t = s := by
  have hle : ((maxImagesFor t : Int) - (currentCountFor s t : Int)) ≤ 0 := by
    omega
  unfold handleAddPastedImages
  simp [hle]

theorem handleAddPastedImages_notFull (s : AppModel) (t : ImageType)
    (h : currentCountFor s t < maxImagesFor t) :
    handleAddPastedImages s t =
      { s with
          cropQueue := s.cropQueue ++
            (s.pastedImages.take (maxImagesFor t - currentCountFor s t)).map
              (fun dataUrl => CropQueueItem.mk dataUrl t)
          isPasteModalOpen := false
          pastedImages := [] } := by
  have hgt : ¬ ((maxImagesFor t : Int) - (currentCountFor s t : Int)) ≤ 0 := by
    omega
  have htn : ((maxImagesFor t : Int) - (currentCountFor s t : Int)).toNat =
      maxImagesFor t - currentCountFor s t := Int.toNat_sub _ _
  unfold handleAddPastedImages
  simp [hgt, htn]

theorem handleImageUpload_eq (s : AppModel) (files : List String) (t : ImageType)
    (h : currentCountFor s t ≤ maxImagesFor t) :
    handleImageUpload s files t =
      { s with
          cropQueue := s.cropQueue ++
            (files.take (maxImagesFor t - currentCountFor s t)).map
              (fun dataUrl => CropQueueItem.mk dataUrl t) } := by
  have hnn : (0 : Int) ≤ (maxImagesFor t : Int) - (currentCountFor s t : Int) := by
    omega
  have htn : ((maxImagesFor t : Int) - (currentCountFor s t : Int)).toNat =
      maxImagesFor t - currentCountFor s t := Int.toNat_sub _ _
  unfold handleImageUpload jsSliceTo
  simp [hnn, htn]

theorem settleAll_cons (arr : List GeneratedImage) (outcomes : Nat → Except JSError String)
    (i : Nat) (rest : List Nat) :
    settleAll arr outcomes (i :: rest) =
      settleAll (arr.set i (slotOfOutcome (outcomes i))) outcomes rest := rfl

theorem settleAll_length (outcomes : Nat → Except JSError String) (order : List Nat) :
    ∀ arr : List GeneratedImage, (settleAll arr outcomes order).length = arr.length := by
  induction order with
  | nil => intro arr; rfl
  | cons i rest ih =>
    intro arr
    rw [settleAll_cons, ih, List.length_set]

theorem settleAll_getElem? (outcomes : Nat → Except JSError String) (order : List Nat) :
    ∀ (arr : List GeneratedImage) (j : Nat),
      (settleAll arr outcomes order)[j]? =
        if j ∈ order ∧ j < arr.length then some (slotOfOutcome (outcomes j)) else arr[j]? := by
  induction order with
  | nil => intro arr j; simp [settleAll]
  | cons i rest ih =>
    intro arr j
    rw [settleAll_cons, ih (arr.set i (slotOfOutcome (outcomes i))) j, List.length_set,
      List.getElem?_set]
    by_cases hr : j ∈ rest
    · by_cases hl : j < arr.length
      · simp [hr, hl, List.mem_cons]
      · simp only [List.mem_cons, List.getElem?_eq_none (Nat.le_of_not_lt hl), hr, hl]
        simp only [and_false, if_false, ite_eq_right_iff, and_imp]
        intro h
        subst h
        exact fun h2 => absurd h2 hl
    · by_cases hij : i = j
      · subst hij
        by_cases hl : i < arr.length
        · simp [hr, hl, List.mem_cons]
        · simp [hr, hl, List.mem_cons, List.getElem?_eq_none (Nat.le_of_not_lt hl)]
      · simp [hr, hij, List.mem_cons, Ne.symm hij]

theorem settleAll_replicate_eq_map (outcomes : Nat → Except JSError String) (k : Nat)
    (order : List Nat) (hcover : ∀ j, j < k → j ∈ order) :
    settleAll (List.replicate k pendingSlot) outcomes order =
      (List.range k).map (fun i => slotOfOutcome (outcomes i)) := by
  apply List.ext_getElem?
  intro j
  rw [settleAll_getElem?, List.getElem?_map, List.length_replicate]
  by_cases hjk : j < k
  · simp [hcover j hjk, hjk, List.getElem?_range hjk]
  · simp [hjk, List.getElem?_replicate,
      List.getElem?_eq_none (by simpa using Nat.le_of_not_lt hjk : (List.range k).length ≤ j)]

theorem slotOfOutcome_status (o : Except JSError String) :
    (slotOfOutcome o).status ≠ ImageStatus.pending ∧
    ((slotOfOutcome o).status = ImageStatus.done ∨
      (slotOfOutcome o).status = ImageStatus.error) := by
  cases o <;> simp [slotOfOutcome]

theorem completionOrder_mem {k : Nat} {order : List Nat} (h : CompletionOrder k order) :
    ∀ j, j < k → j ∈ order := by
  intro j hj
  exact h.mem_iff.mpr (List.mem_range.mpr hj)

theorem handleGenerateClick_eq (s : AppModel) (outcomes : Nat → Except JSError String)
    (order : List Nat) (hu : s.uploadedImages ≠ []) (hv : s.inspirationImages ≠ [])
    (hcover : ∀ j, j < s.generationCount → j ∈ order) :
    handleGenerateClick s outcomes order =
      ({ s with
          appState := AppState.resultsShown
          generatedImages :=
            (List.range s.generationCount).map (fun i => slotOfOutcome (outcomes i)) },
       s.generationCount) := by
  have hguard : ¬ (s.uploadedImages.length = 0 ∨ s.inspirationImages.length = 0) := by
    simp [List.length_eq_zero, hu, hv]
  unfold handleGenerateClick generateStart
  rw [if_neg hguard]
  simp only [settleAll_replicate_eq_map outcomes s.generationCount order hcover]

theorem albumImageDataGo_eq_nil :
    ∀ (slots : List GeneratedImage) (n : Nat),
      (∀ g ∈ slots, g.status ≠ ImageStatus.done) → albumImageDataGo n slots = [] := by
  intro slots
  induction slots with
  | nil => intro n _; rfl
  | cons g rest ih =>
    intro n h
    have hg := h g (by simp)
    have hr : ∀ x ∈ rest, x.status ≠ ImageStatus.done := fun x hx => h x (by simp [hx])
    obtain ⟨st, u, e⟩ := g
    cases st with
    | done => exact absurd rfl hg
    | pending => cases u <;> simp [albumImageDataGo, ih (n + 1) hr]
    | error => cases u <;> simp [albumImageDataGo, ih (n + 1) hr]

theorem albumImageDataGo_eq_filter :
    ∀ (slots : List GeneratedImage) (n : Nat),
      (∀ g ∈ slots, g.status = ImageStatus.done → ∃ u, g.url = some u ∧ u ≠ "") →
      albumImageDataGo n slots =
        ((slots.enumFrom n).filter (fun p => p.2.status == ImageStatus.done)).map
          (fun p => ("Result " ++ toString (p.1 + 1), p.2.url.getD "")) := by
  intro slots
  induction slots with
  | nil => intro n _; rfl
  | cons g rest ih =>
    intro n h
    have ihr := ih (n + 1) (fun x hx => h x (by simp [hx]))
    obtain ⟨st, u, e⟩ := g
    cases st with
    | done =>
      obtain ⟨v, hv, hne⟩ := h ⟨ImageStatus.done, u, e⟩ (by simp) rfl
      simp only at hv
      subst hv
      simp [albumImageDataGo, List.enumFrom_cons, List.filter_cons, ihr, hne]
    | pending =>
      cases u <;>
        simp [albumImageDataGo, List.enumFrom_cons, List.filter_cons, ihr, beq_iff_eq]
    | error =>
      cases u <;>
        simp [albumImageDataGo, List.enumFrom_cons, List.filter_cons, ihr, beq_iff_eq]

theorem albumImageDataGo_ne_nil :
    ∀ (slots : List GeneratedImage) (n : Nat),
      (∀ g ∈ slots, g.status = ImageStatus.done → ∃ u, g.url = some u ∧ u ≠ "") →
      (∃ g ∈ slots, g.status = ImageStatus.done) →
      albumImageDataGo n slots ≠ [] := by
  intro slots
  induction slots with
  | nil =>
    intro n _ hex
    simp at hex
  | cons g rest ih =>
    intro n h hex
    obtain ⟨st, u, e⟩ := g
    cases st with
    | done =>
      obtain ⟨v, hv, hne⟩ := h ⟨ImageStatus.done, u, e⟩ (by simp) rfl
      simp only at hv
      subst hv
      simp [albumImageDataGo, hne]
    | pending =>
      have hex2 : ∃ x ∈ rest, x.status = ImageStatus.done := by
        rcases hex with ⟨x, hx, hxd⟩
        rcases List.mem_cons.mp hx with rfl | hx2
        · simp at hxd
        · exact ⟨x, hx2, hxd⟩
      have ihr := ih (n + 1) (fun x hx => h x (by simp [hx])) hex2
      cases u <;> simpa [albumImageDataGo] using ihr
    | error =>
      have hex2 : ∃ x ∈ rest, x.status = ImageStatus.done := by
        rcases hex with ⟨x, hx, hxd⟩
        rcases List.mem_cons.mp hx with rfl | hx2
        · simp at hxd
        · exact ⟨x, hx2, hxd⟩
      have ihr := ih (n + 1) (fun x hx => h x (by simp [hx])) hex2
      cases u <;> simpa [albumImageDataGo] using ihr

/-! ## Claim theorems -/

instance (k : Nat) (order : List Nat) : Decidable (CompletionOrder k order) :=
  inferInstanceAs (Decidable (List.Perm order (List.range k)))

/-- C2: with both PhotoSets non-empty and K in 1..8 requested,
`handleGenerateClick` creates exactly K all-pending slots, and once all K
requests have settled (in any arrival order) the slot array still has K
entries, each done or error and none pending, K requests were issued, and
the view state is results-shown. -/
theorem generate_completes (s : AppModel) (outcomes : Nat → Except JSError String)
    (order : List Nat) (k : Nat) (hk : s.generationCount = k)
    (hk1 : 1 ≤ k) (hk8 : k ≤ 8)
    (hu : s.uploadedImages ≠ []) (hv : s.inspirationImages ≠ [])
    (horder : CompletionOrder k order) :
    (generateStart s).generatedImages.length = k ∧
    (∀ g ∈ (generateStart s).generatedImages, g.status = ImageStatus.pending) ∧
    (handleGenerateClick s outcomes order).1.generatedImages.length = k ∧
    (∀ g ∈ (handleGenerateClick s outcomes order).1.generatedImages,
        g.status ≠ ImageStatus.pending ∧
        (g.status = ImageStatus.done ∨ g.status = ImageStatus.error)) ∧
    (handleGenerateClick s outcomes order).1.appState = AppState.resultsShown ∧
    (handleGenerateClick s outcomes order).2 = k := by
  subst hk
  rw [handleGenerateClick_eq s outcomes order hu hv (completionOrder_mem horder)]
  refine ⟨by simp [generateStart], ?_, by simp, ?_, rfl, rfl⟩
  · intro g hgm
    simp only [generateStart, List.mem_replicate] at hgm
    rw [hgm.2]
    rfl
  · intro g hgm
    simp only [List.mem_map, List.mem_range] at hgm
    obtain ⟨i, _, rfl⟩ := hgm
    exact slotOfOutcome_status (outcomes i)

/-- Witness for C2: two photos, K = 2, one success and one failure settling
failure-first. -/
theorem generate_completes_witness :
    (handleGenerateClick
        { initialState with
            uploadedImages := ["u"], inspirationImages := ["v"], generationCount := 2 }
        (fun i => if i = 0 then Except.ok "r" else Except.error JSError.nonError)
        [1, 0]).1.appState = AppState.resultsShown ∧
    (handleGenerateClick
        { initialState with
            uploadedImages := ["u"], inspirationImages := ["v"], generationCount := 2 }
        (fun i => if i = 0 then Except.ok "r" else Except.error JSError.nonError)
        [1, 0]).1.generatedImages.length = 2 := by
  have h := generate_completes
    { initialState with
        uploadedImages := ["u"], inspirationImages := ["v"], generationCount := 2 }
    (fun i => if i = 0 then Except.ok "r" else Except.error JSError.nonError)
    [1, 0] 2 rfl (by decide) (by decide) (by decide) (by decide) (by decide)
  exact ⟨h.2.2.2.2.1, h.2.2.1⟩

/-- C3: the final slot array depends only on each request's individual
outcome, not on the arrival order — request i's outcome lands in slot i, so
any two completion orders of the same outcomes give equal results. -/
theorem generate_order_independent (s : AppModel) (outcomes : Nat → Except JSError String)
    (order1 order2 : List Nat) (k : Nat) (hk : s.generationCount = k)
    (hu : s.uploadedImages ≠ []) (hv : s.inspirationImages ≠ [])
    (h1 : CompletionOrder k order1) (h2 : CompletionOrder k order2) :
    handleGenerateClick s outcomes order1 = handleGenerateClick s outcomes order2 ∧
    (handleGenerateClick s outcomes order1).1.generatedImages =
      (List.range k).map (fun i => slotOfOutcome (outcomes i)) := by
  subst hk
  rw [handleGenerateClick_eq s outcomes order1 hu hv (completionOrder_mem h1),
    handleGenerateClick_eq s outcomes order2 hu hv (completionOrder_mem h2)]
  exact ⟨rfl, rfl⟩

/-- Witness for C3, echoing the spec scenario: successes for indices 0 and 2
and a failure for index 1 end as [done, error, done] for reversed and
in-order completions alike. -/
theorem generate_order_independent_witness :
    handleGenerateClick
        { initialState with
            uploadedImages := ["u"], inspirationImages := ["v"], generationCount := 3 }
        (fun i => if i = 1 then Except.error JSError.nonError else Except.ok "r")
        [2, 1, 0] =
      handleGenerateClick
        { initialState with
            uploadedImages := ["u"], inspirationImages := ["v"], generationCount := 3 }
        (fun i => if i = 1 then Except.error JSError.nonError else Except.ok "r")
        [0, 1, 2] ∧
    (handleGenerateClick
        { initialState with
            uploadedImages := ["u"], inspirationImages := ["v"], generationCount := 3 }
        (fun i => if i = 1 then Except.error JSError.nonError else Except.ok "r")
        [2, 1, 0]).1.generatedImages.map (fun g => g.status) =
      [ImageStatus.done, ImageStatus.error, ImageStatus.done] := by
  have h := generate_order_independent
    { initialState with
        uploadedImages := ["u"], inspirationImages := ["v"], generationCount := 3 }
    (fun i => if i = 1 then Except.error JSError.nonError else Except.ok "r")
    [2, 1, 0] [0, 1, 2] 3 rfl (by decide) (by decide) (by decide) (by decide)
  refine ⟨h.1, ?_⟩
  rw [h.2]
  decide

/-- C5: every failure of the external generate call is caught, never
escaping: the handlers are total, and a failing request ends as its slot's
error status with a human-readable message — the thrown `Error`'s own
message, or "An unknown error occurred." for a non-`Error` value — in both
`handleGenerateClick` and `handleRegenerateSlot`. -/
theorem generation_failures_recorded (s : AppModel) (outcomes : Nat → Except JSError String)
    (order : List Nat) (k i : Nat) (err : JSError)
    (hk : s.generationCount = k) (hu : s.uploadedImages ≠ []) (hv : s.inspirationImages ≠ [])
    (horder : CompletionOrder k order) (hik : i < k)
    (hfail : outcomes i = Except.error err)
    (hilen : i < s.generatedImages.length) (hpend : slotPendingAt s i = false) :
    (∀ m, errorMessageOf (JSError.errorObj m) = m) ∧
    errorMessageOf JSError.nonError = "An unknown error occurred." ∧
    slotOfOutcome (Except.error err) =
      { status := ImageStatus.error, url := none, error := some (errorMessageOf err) } ∧
    (handleGenerateClick s outcomes order).1.generatedImages[i]? =
      some { status := ImageStatus.error, url := none, error := some (errorMessageOf err) } ∧
    (handleRegenerateSlot s i (Except.error err)).1.generatedImages[i]? =
      some { status := ImageStatus.error, url := none, error := some (errorMessageOf err) } := by
  subst hk
  have hguard : ¬ (s.uploadedImages.length = 0 ∨ s.inspirationImages.length = 0) := by
    simp [List.length_eq_zero, hu, hv]
  refine ⟨fun m => rfl, rfl, rfl, ?_, ?_⟩
  · rw [handleGenerateClick_eq s outcomes order hu hv (completionOrder_mem horder)]
    simp only [List.getElem?_map, List.getElem?_range hik]
    simp [hfail, slotOfOutcome]
  · unfold handleRegenerateSlot regenPending
    rw [if_neg hguard, if_neg (by simp [hpend])]
    simp only [List.set_set, List.getElem?_set, List.length_set]
    simp [hilen]
    rfl

/-- Witness for C5: a single failing regeneration and a single failing batch
request both record the error message "boom" on slot 0. -/
theorem generation_failures_recorded_witness :
    (handleRegenerateSlot
        { initialState with
            uploadedImages := ["u"], inspirationImages := ["v"], generationCount := 1,
            generatedImages :=
              [{ status := ImageStatus.done, url := some "r", error := none }] }
        0 (Except.error (JSError.errorObj "boom"))).1.generatedImages[0]? =
      some { status := ImageStatus.error, url := none, error := some "boom" } := by
  have h := generation_failures_recorded
    { initialState with
        uploadedImages := ["u"], inspirationImages := ["v"], generationCount := 1,
        generatedImages :=
          [{ status := ImageStatus.done, url := some "r", error := none }] }
    (fun _ => Except.error (JSError.errorObj "boom")) [0] 1 0 (JSError.errorObj "boom")
    rfl (by decide) (by decide) (by decide) (by decide) rfl (by decide) (by decide)
  exact h.2.2.2.2

/-- C4: regenerating slot i is a no-op unless both PhotoSets are non-empty
and slot i is not pending; when allowed it first sets only slot i to
pending, then issues exactly one request and writes its outcome into slot i
(ending done or error, never stuck pending), leaving the view state, the
array length and every other slot untouched. -/
theorem regenerate_slot_spec (s : AppModel) (i : Nat) (outcome : Except JSError String)
    (hi : i < s.generatedImages.length) :
    (s.uploadedImages = [] ∨ s.inspirationImages = [] →
        handleRegenerateSlot s i outcome = (s, 0)) ∧
    (slotPendingAt s i = true → handleRegenerateSlot s i outcome = (s, 0)) ∧
    (s.uploadedImages ≠ [] → s.inspirationImages ≠ [] → slotPendingAt s i = false →
      (regenPending s i).generatedImages[i]? = some pendingSlot ∧
      (∀ j, j ≠ i → (regenPending s i).generatedImages[j]? = s.generatedImages[j]?) ∧
      (regenPending s i).appState = s.appState ∧
      (handleRegenerateSlot s i outcome).1 =
        { s with generatedImages := s.generatedImages.set i (slotOfOutcome outcome) } ∧
      (handleRegenerateSlot s i outcome).1.generatedImages[i]? =
        some (slotOfOutcome outcome) ∧
      ((slotOfOutcome outcome).status = ImageStatus.done ∨
        (slotOfOutcome outcome).status = ImageStatus.error) ∧
      (handleRegenerateSlot s i outcome).1.appState = s.appState ∧
      (handleRegenerateSlot s i outcome).1.generatedImages.length =
        s.generatedImages.length ∧
      (∀ j, j ≠ i →
        (handleRegenerateSlot s i outcome).1.generatedImages[j]? =
          s.generatedImages[j]?) ∧
      (handleRegenerateSlot s i outcome).2 = 1) := by
  refine ⟨?_, ?_, ?_⟩
  · intro h
    have hguard : s.uploadedImages.length = 0 ∨ s.inspirationImages.length = 0 := by
      rcases h with h | h
      · exact Or.inl (by simp [h])
      · exact Or.inr (by simp [h])
    unfold handleRegenerateSlot
    rw [if_pos hguard]
  · intro h
    unfold handleRegenerateSlot
    by_cases hguard : s.uploadedImages.length = 0 ∨ s.inspirationImages.length = 0
    · rw [if_pos hguard]
    · rw [if_neg hguard, if_pos h]
  · intro hu hv hp
    have hguard : ¬ (s.uploadedImages.length = 0 ∨ s.inspirationImages.length = 0) := by
      simp [List.length_eq_zero, hu, hv]
    have hreg : handleRegenerateSlot s i outcome =
        ({ s with generatedImages := s.generatedImages.set i (slotOfOutcome outcome) }, 1) := by
      unfold handleRegenerateSlot regenPending
      rw [if_neg hguard, if_neg (by simp [hp])]
      simp [List.set_set]
    have hij : ∀ j : Nat, j ≠ i → (i = j) = False := by
      intro j hj
      simp [Ne.symm hj]
    refine ⟨?_, ?_, rfl, by rw [hreg], ?_, (slotOfOutcome_status outcome).2, ?_, ?_, ?_,
      by rw [hreg]⟩
    · unfold regenPending
      simp [List.getElem?_set, hi]
    · intro j hj
      unfold regenPending
      simp [List.getElem?_set, hij j hj]
    · rw [hreg]
      simp [List.getElem?_set, hi]
    · rw [hreg]
    · rw [hreg]
      simp
    · intro j hj
      rw [hreg]
      simp [List.getElem?_set, hij j hj]

/-- Witness for C4: regenerating the error slot of a two-slot board succeeds
and leaves the other slot and the view state alone. -/
theorem regenerate_slot_spec_witness :
    (handleRegenerateSlot
        { initialState with
            uploadedImages := ["u"], inspirationImages := ["v"],
            appState := AppState.resultsShown,
            generatedImages :=
              [{ status := ImageStatus.done, url := some "r0", error := none },
               { status := ImageStatus.error, url := none, error := some "boom" }] }
        1 (Except.ok "r1")).1.generatedImages[1]? =
      some { status := ImageStatus.done, url := some "r1", error := none } ∧
    (handleRegenerateSlot
        { initialState with
            uploadedImages := ["u"], inspirationImages := ["v"],
            appState := AppState.resultsShown,
            generatedImages :=
              [{ status := ImageStatus.done, url := some "r0", error := none },
               { status := ImageStatus.error, url := none, error := some "boom" }] }
        1 (Except.ok "r1")).1.generatedImages[0]? =
      some { status := ImageStatus.done, url := some "r0", error := none } ∧
    (handleRegenerateSlot
        { initialState with
            uploadedImages := ["u"], inspirationImages := ["v"],
            appState := AppState.resultsShown,
            generatedImages :=
              [{ status := ImageStatus.done, url := some "r0", error := none },
               { status := ImageStatus.error, url := none, error := some "boom" }] }
        1 (Except.ok "r1")).1.appState = AppState.resultsShown := by
  have h := regenerate_slot_spec
    { initialState with
        uploadedImages := ["u"], inspirationImages := ["v"],
        appState := AppState.resultsShown,
        generatedImages :=
          [{ status := ImageStatus.done, url := some "r0", error := none },
           { status := ImageStatus.error, url := none, error := some "boom" }] }
    1 (Except.ok "r1") (by decide)
  have h3 := h.2.2 (by decide) (by decide) (by decide)
  exact ⟨h3.2.2.2.2.1, h3.2.2.2.2.2.2.2.2.1 0 (by decide), h3.2.2.2.2.2.2.1⟩

/-- C6: downloading the album with zero done slots alerts (empty input) and
neither composes nor downloads; with at least one done slot every done
slot's image is passed to the composer exactly once, as the index-ordered
list of entries labelled "Result i+1"; on every path the composing guard
`isDownloading` is raised for the duration and cleared afterwards, and a
click while a composition is in flight is suppressed. -/
theorem download_album_spec (s : AppModel) (r : Except JSError String) :
    ((∀ g ∈ s.generatedImages, g.status ≠ ImageStatus.done) →
        handleDownloadAlbum s r =
          ({ s with isDownloading := false },
           { composeCalled := false, composeInput := [], downloadTriggered := false,
             alertMessage :=
               some "No images have been successfully generated to create an album." })) ∧
    ((∀ g ∈ s.generatedImages, g.status = ImageStatus.done → ∃ u, g.url = some u ∧ u ≠ "") →
      (∃ g ∈ s.generatedImages, g.status = ImageStatus.done) →
        (handleDownloadAlbum s r).2.composeCalled = true ∧
        (handleDownloadAlbum s r).2.composeInput =
          ((s.generatedImages.enum.filter (fun p => p.2.status == ImageStatus.done)).map
            (fun p => ("Result " ++ toString (p.1 + 1), p.2.url.getD ""))) ∧
        (∀ url, r = Except.ok url →
            (handleDownloadAlbum s r).2.downloadTriggered = true ∧
            (handleDownloadAlbum s r).2.alertMessage = none) ∧
        (∀ e, r = Except.error e →
            (handleDownloadAlbum s r).2.downloadTriggered = false ∧
            (handleDownloadAlbum s r).2.alertMessage =
              some "Sorry, there was an error creating your album. Please try again.")) ∧
    (downloadAlbumInFlight s).isDownloading = true ∧
    (handleDownloadAlbum s r).1.isDownloading = false ∧
    (s.isDownloading = true → clickDownloadAlbum s r = (s, noAlbumEffects)) := by
  have henum : s.generatedImages.enum = s.generatedImages.enumFrom 0 := rfl
  refine ⟨?_, ?_, rfl, ?_, ?_⟩
  · intro h
    have hd : albumImageData s.generatedImages = [] := albumImageDataGo_eq_nil _ 0 h
    unfold handleDownloadAlbum
    simp [hd]
  · intro htr hex
    have hd : albumImageData s.generatedImages =
        ((s.generatedImages.enumFrom 0).filter
            (fun p => p.2.status == ImageStatus.done)).map
          (fun p => ("Result " ++ toString (p.1 + 1), p.2.url.getD "")) :=
      albumImageDataGo_eq_filter s.generatedImages 0 htr
    have hne : albumImageData s.generatedImages ≠ [] :=
      albumImageDataGo_ne_nil s.generatedImages 0 htr hex
    have hlen : ¬ ((albumImageData s.generatedImages).length = 0) := by
      simpa [List.length_eq_zero] using hne
    cases r with
    | ok url =>
      refine ⟨?_, ?_, ?_, ?_⟩
      · unfold handleDownloadAlbum
        simp [hlen]
      · unfold handleDownloadAlbum
        rw [if_neg hlen]
        simp [hd, henum]
      · intro u hu
        unfold handleDownloadAlbum
        simp [hlen]
      · intro e he
        exact absurd he (by simp)
    | error e =>
      refine ⟨?_, ?_, ?_, ?_⟩
      · unfold handleDownloadAlbum
        simp [hlen]
      · unfold handleDownloadAlbum
        rw [if_neg hlen]
        simp [hd, henum]
      · intro u hu
        exact absurd hu (by simp)
      · intro e2 he
        unfold handleDownloadAlbum
        simp [hlen]
  · cases r <;> unfold handleDownloadAlbum <;> dsimp only <;> split <;> rfl
  · intro h
    unfold clickDownloadAlbum
    rw [if_pos h]

/-- Witness for C6: a board with one done and one failed slot composes the
single labelled image; an empty board only alerts. -/
theorem download_album_spec_witness :
    (handleDownloadAlbum
        { initialState with
            appState := AppState.resultsShown,
            generatedImages :=
              [{ status := ImageStatus.done, url := some "r", error := none },
               { status := ImageStatus.error, url := none, error := some "boom" }] }
        (Except.ok "album")).2.composeCalled = true ∧
    (handleDownloadAlbum
        { initialState with
            appState := AppState.resultsShown,
            generatedImages :=
              [{ status := ImageStatus.done, url := some "r", error := none },
               { status := ImageStatus.error, url := none, error := some "boom" }] }
        (Except.ok "album")).2.composeInput = [("Result 1", "r")] ∧
    (handleDownloadAlbum
        { initialState with
            appState := AppState.resultsShown,
            generatedImages :=
              [{ status := ImageStatus.done, url := some "r", error := none },
               { status := ImageStatus.error, url := none, error := some "boom" }] }
        (Except.ok "album")).2.downloadTriggered = true ∧
    (handleDownloadAlbum initialState (Except.ok "x")).2.composeCalled = false ∧
    (handleDownloadAlbum initialState (Except.ok "x")).2.alertMessage =
      some "No images have been successfully generated to create an album." := by
  have h := download_album_spec
    { initialState with
        appState := AppState.resultsShown,
        generatedImages :=
          [{ status := ImageStatus.done, url := some "r", error := none },
           { status := ImageStatus.error, url := none, error := some "boom" }] }
    (Except.ok "album")
  have htr : ∀ g ∈ ({ initialState with
      appState := AppState.resultsShown,
      generatedImages :=
        [{ status := ImageStatus.done, url := some "r", error := none },
         { status := ImageStatus.error, url := none, error := some "boom" }] } :
        AppModel).generatedImages,
      g.status = ImageStatus.done → ∃ u, g.url = some u ∧ u ≠ "" := by
    intro g hg
    simp only [List.mem_cons, List.not_mem_nil, or_false] at hg
    rcases hg with rfl | rfl
    · intro _
      exact ⟨"r", rfl, by decide⟩
    · intro hcontra
      exact absurd hcontra (by decide)
  have h2 := h.2.1 htr
    ⟨{ status := ImageStatus.done, url := some "r", error := none }, by simp, rfl⟩
  have h0 := (download_album_spec initialState (Except.ok "x")).1 (by intro g hg; simp [initialState] at hg)
  refine ⟨h2.1, ?_, (h2.2.2.1 "album" rfl).1, by rw [h0], by rw [h0]⟩
  rw [h2.2.1]
  decide

/-- C1: the spec claims no sequence of intake / paste-add / crop-confirm /
crop-skip / remove operations ever pushes a PhotoSet past its maximum, and in
particular that `handleCropConfirm` never exceeds the bound.  The code
violates this: intake truncation only consults the committed PhotoSet size,
and `handleCropConfirm` appends with no capacity check, so two 10-image
intakes queued before any confirm commit 20 main images. -/
theorem cropConfirm_exceeds_photoset_bound :
    MAX_MAIN_IMAGES = 10 ∧ overfillTrace.uploadedImages.length = 20 :=
  ⟨rfl, rfl⟩

/-- C7: from any state, `handleReset` empties both PhotoSets, the slot array
and the instructions text, returns the view to idle, and leaves the crop
queue exactly as it was. -/
theorem reset_clears_work_keeps_crop_queue (s : AppModel) :
    handleReset s =
      { s with
          uploadedImages := []
          inspirationImages := []
          generatedImages := []
          userPrompt := ""
          appState := AppState.idle } ∧
    (handleReset s).uploadedImages = [] ∧
    (handleReset s).inspirationImages = [] ∧
    (handleReset s).generatedImages = [] ∧
    (handleReset s).userPrompt = "" ∧
    (handleReset s).appState = AppState.idle ∧
    (handleReset s).cropQueue = s.cropQueue :=
  ⟨rfl, rfl, rfl, rfl, rfl, rfl, rfl⟩

/-- C8: for a crop-queue head entry, confirming never mutates the PhotoSet of
the other category (the confirmed crop goes only to the entry's own
category), skipping adds to neither PhotoSet, and both actions pop exactly
the head and reset the crop selection. -/
theorem crop_actions_category_isolated (s : AppModel) (entry : CropQueueItem)
    (rest : List CropQueueItem) (c : PixelCrop) (url : String)
    (hq : s.cropQueue = entry :: rest) (hcc : s.completedCrop = some c) :
    (entry.type = ImageType.main →
        (handleCropConfirm s true url).inspirationImages = s.inspirationImages ∧
        (handleCropConfirm s true url).uploadedImages = s.uploadedImages ++ [url]) ∧
    (entry.type = ImageType.inspiration →
        (handleCropConfirm s true url).uploadedImages = s.uploadedImages ∧
        (handleCropConfirm s true url).inspirationImages = s.inspirationImages ++ [url]) ∧
    (handleCropConfirm s true url).cropQueue = rest ∧
    (handleCropConfirm s true url).crop = none ∧
    (handleCropConfirm s true url).completedCrop = none ∧
    (handleCropCancel s).uploadedImages = s.uploadedImages ∧
    (handleCropCancel s).inspirationImages = s.inspirationImages ∧
    (handleCropCancel s).cropQueue = rest ∧
    (handleCropCancel s).crop = none ∧
    (handleCropCancel s).completedCrop = none := by
  cases hty : entry.type with
  | main =>
    refine ⟨fun _ => ⟨?_, ?_⟩, fun hcontra => absurd hcontra (by decide), ?_, ?_, ?_,
      rfl, rfl, ?_, rfl, rfl⟩ <;>
      simp [handleCropConfirm, handleCropCancel, hq, hcc, hty]
  | inspiration =>
    refine ⟨fun hcontra => absurd hcontra (by decide), fun _ => ⟨?_, ?_⟩, ?_, ?_, ?_,
      rfl, rfl, ?_, rfl, rfl⟩ <;>
      simp [handleCropConfirm, handleCropCancel, hq, hcc, hty]

/-- Witness for C8 at a concrete state with one queued main-category entry. -/
theorem crop_actions_category_isolated_witness :
    (handleCropConfirm
        { initialState with
            cropQueue := [CropQueueItem.mk "d" ImageType.main]
            completedCrop := some (PixelCrop.mk 0 0 1 1) }
        true "u").uploadedImages = ["u"] ∧
    (handleCropCancel
        { initialState with
            cropQueue := [CropQueueItem.mk "d" ImageType.main]
            completedCrop := some (PixelCrop.mk 0 0 1 1) }).uploadedImages = [] := by
  have h := crop_actions_category_isolated
    { initialState with
        cropQueue := [CropQueueItem.mk "d" ImageType.main]
        completedCrop := some (PixelCrop.mk 0 0 1 1) }
    (CropQueueItem.mk "d" ImageType.main) [] (PixelCrop.mk 0 0 1 1) "u" rfl rfl
  exact ⟨(h.1 rfl).2, h.2.2.2.2.2.1⟩

/-- C9: an intake batch (file upload or paste-add) for a category accepts
exactly the first `categoryMax - currentCategorySize` items (so the accepted
count is the minimum of the batch length and the available capacity), queues
them tagged with that category, and changes nothing else; the excess is
dropped with no error surfaced. -/
theorem intake_truncates_to_capacity (s : AppModel) (files : List String) (t : ImageType)
    (hcap : currentCountFor s t ≤ maxImagesFor t) :
    handleImageUpload s files t =
      { s with
          cropQueue := s.cropQueue ++
            (files.take (maxImagesFor t - currentCountFor s t)).map
              (fun dataUrl => CropQueueItem.mk dataUrl t) } ∧
    (handleImageUpload s files t).cropQueue.length =
      s.cropQueue.length + min files.length (maxImagesFor t - currentCountFor s t) ∧
    (handleImageUpload s files t).uploadedImages = s.uploadedImages ∧
    (handleImageUpload s files t).inspirationImages = s.inspirationImages ∧
    (currentCountFor s t < maxImagesFor t →
      handleAddPastedImages s t =
        { s with
            cropQueue := s.cropQueue ++
              (s.pastedImages.take (maxImagesFor t - currentCountFor s t)).map
                (fun dataUrl => CropQueueItem.mk dataUrl t)
            isPasteModalOpen := false
            pastedImages := [] } ∧
      (handleAddPastedImages s t).cropQueue.length =
        s.cropQueue.length + min s.pastedImages.length (maxImagesFor t - currentCountFor s t)) ∧
    (maxImagesFor t ≤ currentCountFor s t → handleAddPastedImages s t = s) := by
  have hup := handleImageUpload_eq s files t hcap
  refine ⟨hup, ?_, by rw [hup], by rw [hup], fun hlt => ?_, fun hge =>
    handleAddPastedImages_full s t hge⟩
  · rw [hup]
    simp [List.length_take, Nat.min_comm]
  · have hp := handleAddPastedImages_notFull s t hlt
    refine ⟨hp, ?_⟩
    rw [hp]
    simp [List.length_take, Nat.min_comm]

/-- Witness for C9: uploading 3 files into an empty main category accepts all
3; pasting 7 images into a main category holding 9 accepts only 1. -/
theorem intake_truncates_to_capacity_witness :
    (handleImageUpload initialState ["a", "b", "c"] ImageType.main).cropQueue.length = 3 ∧
    (handleAddPastedImages
        { initialState with
            uploadedImages := List.replicate 9 "x"
            pastedImages := List.replicate 7 "p"
            isPasteModalOpen := true }
        ImageType.main).cropQueue.length = 1 := by
  have h1 := intake_truncates_to_capacity initialState ["a", "b", "c"] ImageType.main
    (by decide)
  have h2 := intake_truncates_to_capacity
    { initialState with
        uploadedImages := List.replicate 9 "x"
        pastedImages := List.replicate 7 "p"
        isPasteModalOpen := true }
    [] ImageType.main (by decide)
  refine ⟨?_, ?_⟩
  · rw [h1.2.1]
    decide
  · rw [(h2.2.2.2.2.1 (by decide)).2]
    decide

/-- C10: paste-committing into a category that is already full is a complete
no-op: the crop queue, both PhotoSets, the pasted-image buffer and the
paste-modal flag are all left untouched (in particular the modal is not
closed). -/
theorem paste_into_full_category_noop (s : AppModel) (t : ImageType)
    (hfull : maxImagesFor t ≤ currentCountFor s t) :
    handleAddPastedImages s t = s ∧
    (handleAddPastedImages s t).cropQueue = s.cropQueue ∧
    (handleAddPastedImages s t).uploadedImages = s.uploadedImages ∧
    (handleAddPastedImages s t).inspirationImages = s.inspirationImages ∧
    (handleAddPastedImages s t).pastedImages = s.pastedImages ∧
    (handleAddPastedImages s t).isPasteModalOpen = s.isPasteModalOpen := by
  have he := handleAddPastedImages_full s t hfull
  exact ⟨he, by rw [he], by rw [he], by rw [he], by rw [he], by rw [he]⟩

/-- Witness for C10: a full inspiration category with the paste modal open
stays exactly as it is — the modal remains open and the buffer uncleared. -/
theorem paste_into_full_category_noop_witness :
    handleAddPastedImages
        { initialState with
            inspirationImages := ["a", "b", "c", "d", "e"]
            pastedImages := ["p"]
            isPasteModalOpen := true }
        ImageType.inspiration =
      { initialState with
          inspirationImages := ["a", "b", "c", "d", "e"]
          pastedImages := ["p"]
          isPasteModalOpen := true } ∧
    (handleAddPastedImages
        { initialState with
            inspirationImages := ["a", "b", "c", "d", "e"]
            pastedImages := ["p"]
            isPasteModalOpen := true }
        ImageType.inspiration).isPasteModalOpen = true := by
  have h := paste_into_full_category_noop
    { initialState with
        inspirationImages := ["a", "b", "c", "d", "e"]
        pastedImages := ["p"]
        isPasteModalOpen := true }
    ImageType.inspiration (by decide)
  exact ⟨h.1, by rw [h.1]⟩

end PerfectShot
